import Mathlib

/-! Verification of the uesave command-line orchestrator (src/main.rs):
stream resolution, the to-json / from-json conversions, the resave test,
and the interactive edit workflow.  Byte strings are lists of naturals,
the filesystem is a partial map from path strings to contents, and each
command is embedded as a pure function returning its result together with
an explicit record of its observable effects. -/

/-- A byte string: the contents of a file or stream. -/
abbrev Bytes := List Nat

/-- A filesystem: a partial map from path strings to file contents. -/
abbrev Fs := String → Option Bytes

/-- Modelled from the spec: the external SaveDocument collaborator
(uesave's Save::read / Save::write, which is repository code not under
src/) together with the serde_json text bridge.  decode / encode form the
binary codec, toText / fromText the pretty-printed textual bridge; every
fallible operation returns Option.  Byte-stability of encode after decode
is deliberately not assumed: the spec says round-trip stability "is the
property under test, not assumed". -/
structure Codec (Doc : Type) where
  decode : Bytes → Option Doc
  encode : Doc → Option Bytes
  toText : Doc → Option Bytes
  fromText : Bytes → Option Doc

/-- The reserved path token meaning a standard stream. -/
def dashTok : String := "-"

/-- The end-of-options separator passed before the temp file path. -/
def dashDash : String := "--"

/-- Hardcoded fallback editor name. -/
def vimDefault : String := "vim"

/-- Fixed debug dump name for the original bytes. -/
def inputDump : String := "input.sav"

/-- Fixed debug dump name for the re-encoded bytes. -/
def outputDump : String := "output.sav"

/-- Success message of the resave test. -/
def msgResaveOk : String := "Resave successful"

/-- Message printed by edit when the re-encoded bytes equal the original. -/
def msgUnchanged : String := "File unchanged, doing nothing."

/-- Message printed by edit when the re-encoded bytes differ. -/
def msgModified : String := "File modified, writing new save."

/-- Panic message of the expect on an empty token list. -/
def errEditorEmpty : String := "EDITOR empty"

/-- Panic message of the expect on an untokenizable editor command. -/
def errUntok : String := "failed to parse EDITOR"

/-- The empty editor command string. -/
def emptyStr : String := ""

/-- Errors surfaced by a command invocation; main returns Err and the
process exits non-zero exactly when one of these is produced. -/
inductive CliError where
  | ioNotFound
  | decodeError
  | serializeError
  | malformedText
  | encodeError
deriving DecidableEq, Repr

/-- A resolved output endpoint: standard output or an opened file. -/
inductive OutSink where
  | stdOut
  | fileSink (p : String)
deriving DecidableEq, Repr

/-- The input half of the stream resolver (fn input, src/main.rs:129-134):
the token "-" yields the bytes of standard input, any other token is a
filesystem path opened for reading, failing when the file is absent. -/
def resolveInput (fs : Fs) (stdinBytes : Bytes) (tok : String) :
    Except CliError Bytes :=
  if tok = dashTok then Except.ok stdinBytes
  else
    match fs tok with
    | some b => Except.ok b
    | none => Except.error CliError.ioNotFound

/-- The output half of the stream resolver (fn output, src/main.rs:136-147):
the token "-" yields standard output and leaves the filesystem unchanged;
any other token is opened with create + truncate + write, so the file at
that path becomes empty at open time.  Returns the sink and the filesystem
after the open. -/
def resolveOutput (fs : Fs) (tok : String) : OutSink × Fs :=
  if tok = dashTok then (OutSink.stdOut, fs)
  else (OutSink.fileSink tok, fun q => if q = tok then some [] else fs q)

/-- Outcome of a to-json / from-json invocation: the result, whether the
output endpoint was ever opened, the filesystem afterwards, and the bytes
written to standard output when the sink was the standard stream. -/
structure ConvOutcome where
  result : Except CliError Unit
  outputOpened : Bool
  fs : Fs
  stdoutBytes : Option Bytes

/-- Action::ToJson (src/main.rs:60-63): resolve the input, decode the save,
then open the output and render the text to it.  The output endpoint is
only opened after a successful decode. -/
def runToJson {Doc : Type} (C : Codec Doc) (fs : Fs) (stdinBytes : Bytes)
    (inTok outTok : String) : ConvOutcome :=
  match resolveInput fs stdinBytes inTok with
  | Except.error e => ⟨Except.error e, false, fs, none⟩
  | Except.ok bytes =>
    match C.decode bytes with
    | none => ⟨Except.error CliError.decodeError, false, fs, none⟩
    | some save =>
      match resolveOutput fs outTok with
      | (sink, fs2) =>
        match C.toText save with
        | none => ⟨Except.error CliError.serializeError, true, fs2, none⟩
        | some text =>
          match sink with
          | OutSink.stdOut => ⟨Except.ok (), true, fs2, some text⟩
          | OutSink.fileSink p =>
            ⟨Except.ok (), true, fun q => if q = p then some text else fs2 q,
              none⟩

/-- Action::FromJson (src/main.rs:64-67): resolve the input, parse the
text into a save, then open the output and encode into it.  The output
endpoint is only opened after a successful parse. -/
def runFromJson {Doc : Type} (C : Codec Doc) (fs : Fs) (stdinBytes : Bytes)
    (inTok outTok : String) : ConvOutcome :=
  match resolveInput fs stdinBytes inTok with
  | Except.error e => ⟨Except.error e, false, fs, none⟩
  | Except.ok textBytes =>
    match C.fromText textBytes with
    | none => ⟨Except.error CliError.malformedText, false, fs, none⟩
    | some save =>
      match resolveOutput fs outTok with
      | (sink, fs2) =>
        match C.encode save with
        | none => ⟨Except.error CliError.encodeError, true, fs2, none⟩
        | some outB =>
          match sink with
          | OutSink.stdOut => ⟨Except.ok (), true, fs2, some outB⟩
          | OutSink.fileSink p =>
            ⟨Except.ok (), true, fun q => if q = p then some outB else fs2 q,
              none⟩

/-- Errors of the resave test. -/
inductive ResaveError where
  | ioError
  | decodeError
  | encodeError
  | mismatch
deriving DecidableEq, Repr

/-- Outcome of a test-resave invocation: result, the filesystem writes it
performed (path and bytes, in order), and the messages it printed. -/
structure ResaveOutcome where
  result : Except ResaveError Unit
  writes : List (String × Bytes)
  messages : List String

/-- Action::TestResave (src/main.rs:68-81): read the file, decode, encode,
and compare the buffers; on mismatch, dump both buffers to the two fixed
names when the debug flag is set and fail; on a match, print success. -/
def runTestResave {Doc : Type} (C : Codec Doc) (fs : Fs) (path : String)
    (debug : Bool) : ResaveOutcome :=
  match fs path with
  | none => ⟨Except.error ResaveError.ioError, [], []⟩
  | some inputB =>
    match C.decode inputB with
    | none => ⟨Except.error ResaveError.decodeError, [], []⟩
    | some save =>
      match C.encode save with
      | none => ⟨Except.error ResaveError.encodeError, [], []⟩
      | some outputB =>
        if inputB ≠ outputB then
          if debug then
            ⟨Except.error ResaveError.mismatch,
              [(inputDump, inputB), (outputDump, outputB)], []⟩
          else
            ⟨Except.error ResaveError.mismatch, [], []⟩
        else
          ⟨Except.ok (), [], [msgResaveOk]⟩

/-- Whitespace tokenizer, recursing over the characters with the pending
token accumulated in reverse. -/
def splitTokens : List Char → List Char → List String
  | [], acc => if acc.isEmpty then [] else [String.mk acc.reverse]
  | c :: cs, acc =>
    if c = ' ' then
      if acc.isEmpty then splitTokens cs []
      else String.mk acc.reverse :: splitTokens cs []
    else splitTokens cs (c :: acc)

/-- Modelled from the spec: shell-style tokenization of the editor command
string (shell_words::split, an external crate absent from src/).  Splits on
whitespace; the empty string yields the empty token list.  Quoting, which
no claim exercises, is not modelled, so no input is untokenizable here;
the Option return keeps the failure path of the source's expect. -/
def shellSplit (s : String) : Option (List String) :=
  some (splitTokens s.data [])

/-- How the child process's standard input is configured. -/
inductive StdinConfig where
  | piped
  | inherited
deriving DecidableEq, Repr

/-- The configuration of the spawned editor process: program, argument
list, and the standard input configuration. -/
structure SpawnConfig where
  program : String
  args : List String
  childStdin : StdinConfig
deriving DecidableEq, Repr

/-- Observable events of an edit invocation, in order. -/
inductive EditEvent where
  | readTarget (path : String)
  | tempWrite (text : Bytes)
  | spawn (cfg : SpawnConfig)
  | waitChild (status : Int)
  | reparse
  | printMsg (msg : String)
  | targetWrite (path : String) (bytes : Bytes)
deriving DecidableEq, Repr

/-- Errors of the edit workflow; the editorInvocationError constructor
stands for the fatal expect panics around editor tokenization. -/
inductive EditError where
  | ioError
  | decodeError
  | serializeError
  | editorInvocationError (msg : String)
  | malformedText
  | encodeError
deriving DecidableEq, Repr

/-- Outcome of an edit invocation: the result and the ordered event trace. -/
structure EditOutcome where
  result : Except EditError Unit
  trace : List EditEvent

/-- Editor command selection (src/main.rs:83-86): the explicit argument,
else the EDITOR environment variable, else the fallback. -/
def editorOf (editorArg envEditor : Option String) : String :=
  match editorArg with
  | some e => e
  | none =>
    match envEditor with
    | some e => e
    | none => vimDefault

/-- Action::Edit (src/main.rs:82-124): read and decode the target, render
it to a temp file, tokenize the editor command, spawn the editor with
piped standard input and wait for it, re-parse the possibly edited temp
file, re-encode, and write the target only when the new bytes differ.
editorRun models the external editor: from the temp file's text it
produces the text left behind and the child's exit status. -/
def runEdit {Doc : Type} (C : Codec Doc) (fs : Fs) (tempPath path : String)
    (editorArg envEditor : Option String) (editorRun : Bytes → Bytes × Int) :
    EditOutcome :=
  let editor := editorOf editorArg envEditor
  match fs path with
  | none => ⟨Except.error EditError.ioError, []⟩
  | some buffer =>
    match C.decode buffer with
    | none => ⟨Except.error EditError.decodeError, [EditEvent.readTarget path]⟩
    | some save =>
      match C.toText save with
      | none =>
        ⟨Except.error EditError.serializeError, [EditEvent.readTarget path]⟩
      | some text =>
        match shellSplit editor with
        | none =>
          ⟨Except.error (EditError.editorInvocationError errUntok),
            [EditEvent.readTarget path, EditEvent.tempWrite text]⟩
        | some toks =>
          match toks with
          | [] =>
            ⟨Except.error (EditError.editorInvocationError errEditorEmpty),
              [EditEvent.readTarget path, EditEvent.tempWrite text]⟩
          | prog :: rest =>
            let cfg : SpawnConfig :=
              ⟨prog, rest ++ [dashDash, tempPath], StdinConfig.piped⟩
            let res := editorRun text
            match C.fromText res.1 with
            | none =>
              ⟨Except.error EditError.malformedText,
                [EditEvent.readTarget path, EditEvent.tempWrite text,
                  EditEvent.spawn cfg, EditEvent.waitChild res.2,
                  EditEvent.reparse]⟩
            | some save2 =>
              match C.encode save2 with
              | none =>
                ⟨Except.error EditError.encodeError,
                  [EditEvent.readTarget path, EditEvent.tempWrite text,
                    EditEvent.spawn cfg, EditEvent.waitChild res.2,
                    EditEvent.reparse]⟩
              | some outBuffer =>
                if buffer = outBuffer then
                  ⟨Except.ok (),
                    [EditEvent.readTarget path, EditEvent.tempWrite text,
                      EditEvent.spawn cfg, EditEvent.waitChild res.2,
                      EditEvent.reparse, EditEvent.printMsg msgUnchanged]⟩
                else
                  ⟨Except.ok (),
                    [EditEvent.readTarget path, EditEvent.tempWrite text,
                      EditEvent.spawn cfg, EditEvent.waitChild res.2,
                      EditEvent.reparse, EditEvent.printMsg msgModified,
                      EditEvent.targetWrite path outBuffer]⟩

/-- Keeps every edit event except the recorded child exit status. -/
def nonWait : EditEvent → Bool
  | EditEvent.waitChild _ => false
  | _ => true

/-- A codec whose re-encoding reproduces the original byte exactly. -/
def c1Codec : Codec Unit :=
  ⟨fun _ => some (), fun _ => some [0], fun _ => some [7],
    fun b => if b = [7] then some () else none⟩

/-- A codec identical to c1Codec except that re-encoding yields different
bytes, so the file does not round-trip byte-for-byte. -/
def c1xCodec : Codec Unit :=
  ⟨fun _ => some (), fun _ => some [1], fun _ => some [7],
    fun b => if b = [7] then some () else none⟩

/-- Target path for the edit round-trip scenarios. -/
def c1Path : String := "s.sav"

/-- Temp file path for the edit round-trip scenarios. -/
def c1Tmp : String := "s.json"

/-- One-token editor command for the edit scenarios. -/
def c1Ed : String := "vi"

/-- Filesystem holding one save file of bytes [0]. -/
def c1Fs : Fs := fun p => if p = c1Path then some [0] else none

/-- Trivial codec for the spawn-configuration scenario. -/
def c2Codec : Codec Unit :=
  ⟨fun _ => some (), fun _ => some [3], fun _ => some [7], fun _ => some ()⟩

/-- Target path for the spawn-configuration scenario. -/
def c2Path : String := "p.sav"

/-- Temp file path for the spawn-configuration scenario. -/
def c2Tmp : String := "t.json"

/-- Editor command for the spawn-configuration scenario. -/
def c2Ed : String := "vi"

/-- Filesystem for the spawn-configuration scenario. -/
def c2Fs : Fs := fun p => if p = c2Path then some [3] else none

/-- Trivial codec for the empty-editor scenario. -/
def c3Codec : Codec Unit :=
  ⟨fun _ => some (), fun _ => some [0], fun _ => some [7], fun _ => some ()⟩

/-- Target path for the empty-editor scenario. -/
def c3Path : String := "f.sav"

/-- Temp file path for the empty-editor scenario. -/
def c3Tmp : String := "f.json"

/-- Filesystem for the empty-editor scenario. -/
def c3Fs : Fs := fun p => if p = c3Path then some [0] else none

/-- Codec whose re-encoding differs from the original bytes, driving the
edit workflow into its write branch. -/
def c4Codec : Codec Unit :=
  ⟨fun _ => some (), fun _ => some [1], fun _ => some [7], fun _ => some ()⟩

/-- Target path for the write-ordering scenario. -/
def c4Path : String := "w.sav"

/-- Temp file path for the write-ordering scenario. -/
def c4Tmp : String := "w.json"

/-- Editor command for the write-ordering scenario. -/
def c4Ed : String := "vi"

/-- Filesystem for the write-ordering scenario. -/
def c4Fs : Fs := fun p => if p = c4Path then some [0] else none

/-- Codec whose re-encoding mismatches, for the resave-failure scenario. -/
def c5Codec : Codec Unit :=
  ⟨fun _ => some (), fun _ => some [1], fun _ => some [], fun _ => some ()⟩

/-- Input path for the resave-failure scenario. -/
def c5Path : String := "t.sav"

/-- Filesystem for the resave-failure scenario. -/
def c5Fs : Fs := fun p => if p = c5Path then some [0] else none

/-- Trivial codec for the missing-input scenario. -/
def c6Codec : Codec Unit :=
  ⟨fun _ => some (), fun _ => some [], fun _ => some [], fun _ => some ()⟩

/-- An empty filesystem: every open for reading fails. -/
def c6Fs : Fs := fun _ => none

/-- The missing input path. -/
def c6In : String := "doesnotexist.sav"

/-- An empty filesystem for the stream-resolver scenario. -/
def c7Fs : Fs := fun _ => none

/-- A non-dash path token for the stream-resolver scenario. -/
def c7Tok : String := "file.sav"

/-- Trivial codec for the exit-status scenario. -/
def c8Codec : Codec Unit :=
  ⟨fun _ => some (), fun _ => some [2], fun _ => some [7], fun _ => some ()⟩

/-- Target path for the exit-status scenario. -/
def c8Path : String := "e.sav"

/-- Temp file path for the exit-status scenario. -/
def c8Tmp : String := "e.json"

/-- Editor command for the exit-status scenario. -/
def c8Ed : String := "vi"

/-- Filesystem for the exit-status scenario. -/
def c8Fs : Fs := fun p => if p = c8Path then some [2] else none

/-- Codec that rejects every text, for the malformed from-json scenario. -/
def c9Codec : Codec Unit :=
  ⟨fun _ => some (), fun _ => some [], fun _ => some [], fun _ => none⟩

/-- Input path holding malformed text. -/
def c9In : String := "bad.json"

/-- Filesystem holding the malformed text file. -/
def c9Fs : Fs := fun p => if p = c9In then some [9] else none

/-- Mismatching codec for the debug-dump aliasing scenario. -/
def c10Codec : Codec Unit :=
  ⟨fun _ => some (), fun _ => some [1], fun _ => some [], fun _ => some ()⟩

/-- Filesystem where the input path is the fixed dump name output.sav. -/
def c10Fs : Fs := fun p => if p = outputDump then some [0] else none

/-- C7: the stream resolver maps the literal "-" to the standard streams;
any other token is a filesystem path, where a read fails with a not-found
error if the file is absent, and a write creates the file if absent and
truncates it if present, leaving every other path untouched. -/
theorem stream_resolver_spec (fs : Fs) (sb : Bytes) (tok : String)
    (h : tok ≠ dashTok) :
    resolveInput fs sb dashTok = Except.ok sb ∧
    resolveOutput fs dashTok = (OutSink.stdOut, fs) ∧
    (fs tok = none → resolveInput fs sb tok = Except.error CliError.ioNotFound) ∧
    (∀ b, fs tok = some b → resolveInput fs sb tok = Except.ok b) ∧
    (resolveOutput fs tok).1 = OutSink.fileSink tok ∧
    (resolveOutput fs tok).2 tok = some [] ∧
    (∀ q, q ≠ tok → (resolveOutput fs tok).2 q = fs q) := by
  constructor
  · simp [resolveInput]
  constructor
  · simp [resolveOutput]
  constructor
  · intro hn
    simp [resolveInput, h, hn]
  constructor
  · intro b hb
    simp [resolveInput, h, hb]
  constructor
  · simp [resolveOutput, h]
  constructor
  · simp [resolveOutput, h]
  · intro q hq
    simp [resolveOutput, h, hq]

/-- Witness for C7 at a concrete filesystem and token. -/
theorem stream_resolver_spec_witness :
    resolveInput c7Fs [] dashTok = Except.ok [] ∧
    resolveInput c7Fs [] c7Tok = Except.error CliError.ioNotFound ∧
    (resolveOutput c7Fs c7Tok).2 c7Tok = some [] :=
  have h := stream_resolver_spec c7Fs [] c7Tok (by decide)
  ⟨h.1, h.2.2.1 rfl, h.2.2.2.2.2.1⟩

/-- C6: to-json with a non-dash input path naming a nonexistent file fails
with the not-found error, never opens the output endpoint, and leaves the
filesystem unchanged. -/
theorem toJson_missing_input {Doc : Type} (C : Codec Doc) (fs : Fs)
    (sb : Bytes) (inTok outTok : String) (h1 : inTok ≠ dashTok)
    (h2 : fs inTok = none) :
    (runToJson C fs sb inTok outTok).result = Except.error CliError.ioNotFound ∧
    (runToJson C fs sb inTok outTok).outputOpened = false ∧
    (runToJson C fs sb inTok outTok).fs = fs := by
  refine ⟨?_, ?_, ?_⟩ <;> simp [runToJson, resolveInput, h1, h2]

/-- Witness for C6 at a concrete empty filesystem. -/
theorem toJson_missing_input_witness :
    (runToJson c6Codec c6Fs [] c6In dashTok).result =
      Except.error CliError.ioNotFound ∧
    (runToJson c6Codec c6Fs [] c6In dashTok).outputOpened = false :=
  have h := toJson_missing_input c6Codec c6Fs [] c6In dashTok (by decide) rfl
  ⟨h.1, h.2.1⟩

/-- C9: in from-json, malformed input text aborts with the malformed-text
error before the output endpoint is opened, leaving the filesystem
unchanged; conversely the output endpoint is opened only after the input
was resolved and parsed successfully. -/
theorem fromJson_malformed_no_output {Doc : Type} (C : Codec Doc) (fs : Fs)
    (sb : Bytes) (inTok outTok : String) :
    (∀ tb, resolveInput fs sb inTok = Except.ok tb → C.fromText tb = none →
      (runFromJson C fs sb inTok outTok).result =
        Except.error CliError.malformedText ∧
      (runFromJson C fs sb inTok outTok).outputOpened = false ∧
      (runFromJson C fs sb inTok outTok).fs = fs) ∧
    ((runFromJson C fs sb inTok outTok).outputOpened = true →
      ∃ tb d, resolveInput fs sb inTok = Except.ok tb ∧
        C.fromText tb = some d) := by
  constructor
  · intro tb hin hparse
    refine ⟨?_, ?_, ?_⟩ <;> simp [runFromJson, hin, hparse]
  · intro hop
    cases hin : resolveInput fs sb inTok with
    | error e => simp [runFromJson, hin] at hop
    | ok tb =>
      cases hpt : C.fromText tb with
      | none => simp [runFromJson, hin, hpt] at hop
      | some d => exact ⟨tb, d, rfl, hpt⟩

/-- Witness for C9 at a concrete malformed text file. -/
theorem fromJson_malformed_no_output_witness :
    (runFromJson c9Codec c9Fs [] c9In dashTok).result =
      Except.error CliError.malformedText ∧
    (runFromJson c9Codec c9Fs [] c9In dashTok).outputOpened = false :=
  have h := (fromJson_malformed_no_output c9Codec c9Fs [] c9In dashTok).1
    [9] rfl rfl
  ⟨h.1, h.2.1⟩

/-- C5: when the re-encoded bytes differ from the original, test-resave
fails (main returns Err, so the process exits non-zero), and with the
debug flag it writes the original bytes to input.sav and the re-encoded
bytes to output.sav; when they are equal it prints the success message,
performs no write, and succeeds (exit zero). -/
theorem testResave_verdicts {Doc : Type} (C : Codec Doc) (fs : Fs)
    (path : String) (debug : Bool) (inputB outputB : Bytes) (d : Doc)
    (hfs : fs path = some inputB) (hdec : C.decode inputB = some d)
    (henc : C.encode d = some outputB) :
    (inputB ≠ outputB →
      (runTestResave C fs path debug).result =
        Except.error ResaveError.mismatch ∧
      (runTestResave C fs path debug).writes =
        (if debug then [(inputDump, inputB), (outputDump, outputB)]
          else [])) ∧
    (inputB = outputB →
      (runTestResave C fs path debug).result = Except.ok () ∧
      (runTestResave C fs path debug).messages = [msgResaveOk] ∧
      (runTestResave C fs path debug).writes = []) := by
  constructor
  · intro hne
    cases debug <;> simp [runTestResave, hfs, hdec, henc, hne]
  · intro heq
    subst heq
    simp [runTestResave, hfs, hdec, henc]

/-- Witness for C5: a concrete mismatching file under the debug flag. -/
theorem testResave_verdicts_witness :
    (runTestResave c5Codec c5Fs c5Path true).result =
      Except.error ResaveError.mismatch ∧
    (runTestResave c5Codec c5Fs c5Path true).writes =
      [(inputDump, [0]), (outputDump, [1])] := by
  have h := (testResave_verdicts c5Codec c5Fs c5Path true [0] [1] ()
    (by simp [c5Fs]) rfl rfl).1 (by decide)
  simpa using h

/-- C10 (amended): every filesystem write of test-resave targets one of
the two fixed dump names, so a path distinct from both is never written;
a matching run performs no write at all, and neither does any run without
the debug flag. -/
theorem testResave_frame {Doc : Type} (C : Codec Doc) (fs : Fs)
    (path : String) (debug : Bool) :
    (∀ w ∈ (runTestResave C fs path debug).writes,
      w.1 = inputDump ∨ w.1 = outputDump) ∧
    ((runTestResave C fs path debug).result = Except.ok () →
      (runTestResave C fs path debug).writes = []) ∧
    (debug = false → (runTestResave C fs path debug).writes = []) := by
  cases hfs : fs path with
  | none => simp [runTestResave, hfs]
  | some inputB =>
    cases hdec : C.decode inputB with
    | none => simp [runTestResave, hfs, hdec]
    | some save =>
      cases henc : C.encode save with
      | none => simp [runTestResave, hfs, hdec, henc]
      | some outputB =>
        by_cases hne : inputB = outputB
        · subst hne
          simp [runTestResave, hfs, hdec, henc]
        · cases debug <;>
            simp [runTestResave, hfs, hdec, henc, hne]

/-- Witness for C10's amended statement at a concrete run. -/
theorem testResave_frame_witness :
    (∀ w ∈ (runTestResave c5Codec c5Fs c5Path false).writes,
      w.1 = inputDump ∨ w.1 = outputDump) ∧
    (runTestResave c5Codec c5Fs c5Path false).writes = [] :=
  have h := testResave_frame c5Codec c5Fs c5Path false
  ⟨h.1, h.2.2 rfl⟩

/-- Counterexample for C10 as stated: when the input path is the literal
output.sav, a mismatching debug run writes re-encoded bytes to the very
path it read, changing that file's contents from [0] to [1]. -/
theorem testResave_input_path_cex :
    c10Fs outputDump = some [0] ∧
    (runTestResave c10Codec c10Fs outputDump true).writes =
      [(inputDump, [0]), (outputDump, [1])] ∧
    (runTestResave c10Codec c10Fs outputDump true).result =
      Except.error ResaveError.mismatch ∧
    ([1] : Bytes) ≠ [0] :=
  ⟨rfl, rfl, rfl, by decide⟩

/-- C2: the edit workflow spawns the editor child with its standard input
configured as piped, not inherited — at a concrete invocation the spawned
configuration carries the piped setting and no inherited-stdin spawn
occurs, diverging from the claim that standard input is inherited. -/
theorem edit_spawn_stdin_piped :
    EditEvent.spawn ⟨c2Ed, [dashDash, c2Tmp], StdinConfig.piped⟩ ∈
      (runEdit c2Codec c2Fs c2Tmp c2Path (some c2Ed) none
        (fun t => (t, 0))).trace ∧
    EditEvent.spawn ⟨c2Ed, [dashDash, c2Tmp], StdinConfig.inherited⟩ ∉
      (runEdit c2Codec c2Fs c2Tmp c2Path (some c2Ed) none
        (fun t => (t, 0))).trace ∧
    StdinConfig.piped ≠ StdinConfig.inherited := by
  refine ⟨by decide, by decide, by decide⟩

/-- Counterexample for C3 as stated: with an empty editor string the
command does fail with the editor-invocation error and never writes the
target, but a file has already been opened for writing before the failure:
the temporary file was created and the rendered text written to it. -/
theorem edit_empty_editor_cex :
    (runEdit c3Codec c3Fs c3Tmp c3Path (some emptyStr) none
      (fun t => (t, 0))).result =
      Except.error (EditError.editorInvocationError errEditorEmpty) ∧
    EditEvent.tempWrite [7] ∈
      (runEdit c3Codec c3Fs c3Tmp c3Path (some emptyStr) none
        (fun t => (t, 0))).trace ∧
    (runEdit c3Codec c3Fs c3Tmp c3Path (some emptyStr) none
      (fun t => (t, 0))).trace =
      [EditEvent.readTarget c3Path, EditEvent.tempWrite [7]] := by
  refine ⟨rfl, by decide, rfl⟩

/-- C3 (amended): with an empty editor string, once the target has been
read, decoded and rendered, the edit command fails with the
editor-invocation error; no editor is spawned and the target file is
neither written nor removed — though the temporary file has already been
opened for writing by then. -/
theorem edit_empty_editor_aborts {Doc : Type} (C : Codec Doc) (fs : Fs)
    (tp p : String) (ev : Option String) (er : Bytes → Bytes × Int)
    (buffer text : Bytes) (d : Doc) (hfs : fs p = some buffer)
    (hdec : C.decode buffer = some d) (htxt : C.toText d = some text) :
    (runEdit C fs tp p (some emptyStr) ev er).result =
      Except.error (EditError.editorInvocationError errEditorEmpty) ∧
    (∀ q b, EditEvent.targetWrite q b ∉
      (runEdit C fs tp p (some emptyStr) ev er).trace) ∧
    (∀ cfg, EditEvent.spawn cfg ∉
      (runEdit C fs tp p (some emptyStr) ev er).trace) := by
  have hs : shellSplit emptyStr = some [] := rfl
  have he : editorOf (some emptyStr) ev = emptyStr := rfl
  refine ⟨?_, ?_, ?_⟩ <;> simp [runEdit, he, hs, hfs, hdec, htxt]

/-- Witness for C3's amended statement at a concrete instance. -/
theorem edit_empty_editor_aborts_witness :
    (runEdit c3Codec c3Fs c3Tmp c3Path (some emptyStr) none
      (fun t => (t, 1))).result =
      Except.error (EditError.editorInvocationError errEditorEmpty) ∧
    EditEvent.targetWrite c3Path [0] ∉
      (runEdit c3Codec c3Fs c3Tmp c3Path (some emptyStr) none
        (fun t => (t, 1))).trace :=
  have h := edit_empty_editor_aborts c3Codec c3Fs c3Tmp c3Path none
    (fun t => (t, 1)) [0] [7] () rfl rfl rfl
  ⟨h.1, h.2.1 c3Path [0]⟩

/-- C8: the edit workflow treats the child's exit status as data only:
two runs whose editors leave the same text but exit with different
statuses produce the same result and the same trace apart from the
recorded status, and whenever an editor was spawned the workflow went on
to re-parse the temporary file, whatever the status was. -/
theorem edit_ignores_exit_status {Doc : Type} (C : Codec Doc) (fs : Fs)
    (tp p : String) (ea ev : Option String) (f : Bytes → Bytes)
    (s1 s2 : Int) :
    (runEdit C fs tp p ea ev (fun t => (f t, s1))).result =
      (runEdit C fs tp p ea ev (fun t => (f t, s2))).result ∧
    (runEdit C fs tp p ea ev (fun t => (f t, s1))).trace.filter nonWait =
      (runEdit C fs tp p ea ev (fun t => (f t, s2))).trace.filter nonWait ∧
    (∀ cfg, EditEvent.spawn cfg ∈
        (runEdit C fs tp p ea ev (fun t => (f t, s1))).trace →
      EditEvent.reparse ∈
        (runEdit C fs tp p ea ev (fun t => (f t, s1))).trace) := by
  cases hfs : fs p with
  | none => simp [runEdit, hfs]
  | some buffer =>
    cases hdec : C.decode buffer with
    | none => simp [runEdit, hfs, hdec]
    | some d =>
      cases htxt : C.toText d with
      | none => simp [runEdit, hfs, hdec, htxt]
      | some text =>
        cases hsp : shellSplit (editorOf ea ev) with
        | none => simp [runEdit, hfs, hdec, htxt, hsp, nonWait]
        | some toks =>
          cases toks with
          | nil => simp [runEdit, hfs, hdec, htxt, hsp, nonWait]
          | cons prog rest =>
            cases hft : C.fromText (f text) with
            | none => simp [runEdit, hfs, hdec, htxt, hsp, hft, nonWait]
            | some d2 =>
              cases henc : C.encode d2 with
              | none => simp [runEdit, hfs, hdec, htxt, hsp, hft, henc, nonWait]
              | some outB =>
                by_cases hbo : buffer = outB
                · subst hbo
                  simp [runEdit, hfs, hdec, htxt, hsp, hft, henc, nonWait]
                · simp [runEdit, hfs, hdec, htxt, hsp, hft, henc, hbo, nonWait]

/-- Witness for C8: two concrete runs differing only in exit status. -/
theorem edit_ignores_exit_status_witness :
    (runEdit c8Codec c8Fs c8Tmp c8Path (some c8Ed) none
      (fun t => (t, 1))).result =
      (runEdit c8Codec c8Fs c8Tmp c8Path (some c8Ed) none
        (fun t => (t, 0))).result ∧
    EditEvent.reparse ∈
      (runEdit c8Codec c8Fs c8Tmp c8Path (some c8Ed) none
        (fun t => (t, 1))).trace :=
  have h := edit_ignores_exit_status c8Codec c8Fs c8Tmp c8Path (some c8Ed)
    none (fun t => t) 1 0
  ⟨h.1, h.2.2 ⟨c8Ed, [dashDash, c8Tmp], StdinConfig.piped⟩ (by decide)⟩

/-- C1 (amended): when the editor leaves the temporary text unchanged, the
text bridge is lossless on the document, and the codec re-encodes the
document back to the original bytes exactly, the edit command succeeds,
prints the unchanged message, and performs no write to the target path. -/
theorem edit_noop_editor_unchanged {Doc : Type} (C : Codec Doc) (fs : Fs)
    (tp p : String) (ea ev : Option String) (status : Int)
    (buffer text : Bytes) (d : Doc) (prog : String) (rest : List String)
    (hfs : fs p = some buffer) (hdec : C.decode buffer = some d)
    (htxt : C.toText d = some text)
    (hsp : shellSplit (editorOf ea ev) = some (prog :: rest))
    (hround : C.fromText text = some d)
    (hstable : C.encode d = some buffer) :
    (runEdit C fs tp p ea ev (fun t => (t, status))).result = Except.ok () ∧
    EditEvent.printMsg msgUnchanged ∈
      (runEdit C fs tp p ea ev (fun t => (t, status))).trace ∧
    (∀ q b, EditEvent.targetWrite q b ∉
      (runEdit C fs tp p ea ev (fun t => (t, status))).trace) := by
  refine ⟨?_, ?_, ?_⟩ <;>
    simp [runEdit, hfs, hdec, htxt, hsp, hround, hstable]

/-- Witness for C1's amended statement: a codec that is byte-stable on the
concrete file, with an editor that changes nothing. -/
theorem edit_noop_editor_unchanged_witness :
    (runEdit c1Codec c1Fs c1Tmp c1Path (some c1Ed) none
      (fun t => (t, 0))).result = Except.ok () ∧
    EditEvent.printMsg msgUnchanged ∈
      (runEdit c1Codec c1Fs c1Tmp c1Path (some c1Ed) none
        (fun t => (t, 0))).trace :=
  have h := edit_noop_editor_unchanged c1Codec c1Fs c1Tmp c1Path
    (some c1Ed) none 0 [0] [7] () c1Ed [] rfl rfl rfl rfl rfl rfl
  ⟨h.1, h.2.1⟩

/-- Counterexample for C1 as stated: a codec whose re-encoding of the
decoded document differs from the original bytes, although its text
bridge is lossless.  The editor changes nothing, yet the command reports
modified and writes the re-encoded bytes to the target path. -/
theorem edit_noop_editor_cex :
    c1xCodec.fromText [7] = some () ∧
    c1xCodec.toText () = some [7] ∧
    c1Fs c1Path = some [0] ∧
    (runEdit c1xCodec c1Fs c1Tmp c1Path (some c1Ed) none
      (fun t => (t, 0))).result = Except.ok () ∧
    EditEvent.targetWrite c1Path [1] ∈
      (runEdit c1xCodec c1Fs c1Tmp c1Path (some c1Ed) none
        (fun t => (t, 0))).trace ∧
    EditEvent.printMsg msgModified ∈
      (runEdit c1xCodec c1Fs c1Tmp c1Path (some c1Ed) none
        (fun t => (t, 0))).trace ∧
    EditEvent.printMsg msgUnchanged ∉
      (runEdit c1xCodec c1Fs c1Tmp c1Path (some c1Ed) none
        (fun t => (t, 0))).trace :=
  ⟨rfl, rfl, rfl, rfl, by decide, by decide, by decide⟩

/-- C4: any error of the edit workflow — in particular a failed re-parse
of the edited temporary text — leaves the target path unwritten, and a
write to the target occurs only in a successful run, after the re-parse
and the re-encode both succeeded with bytes that differ from the
original. -/
theorem edit_malformed_aborts_before_write {Doc : Type} (C : Codec Doc)
    (fs : Fs) (tp p : String) (ea ev : Option String)
    (er : Bytes → Bytes × Int) :
    (∀ buffer d text, fs p = some buffer → C.decode buffer = some d →
      C.toText d = some text → C.fromText (er text).1 = none →
      (∃ e, (runEdit C fs tp p ea ev er).result = Except.error e) ∧
      ∀ q b, EditEvent.targetWrite q b ∉ (runEdit C fs tp p ea ev er).trace) ∧
    (∀ q b, EditEvent.targetWrite q b ∈ (runEdit C fs tp p ea ev er).trace →
      (runEdit C fs tp p ea ev er).result = Except.ok () ∧ q = p ∧
      ∃ buffer d text d2, fs p = some buffer ∧ C.decode buffer = some d ∧
        C.toText d = some text ∧ C.fromText (er text).1 = some d2 ∧
        C.encode d2 = some b ∧ b ≠ buffer) := by
  constructor
  · intro buffer d text hfs hdec htxt hft
    cases hsp : shellSplit (editorOf ea ev) with
    | none =>
      exact ⟨⟨EditError.editorInvocationError errUntok,
          by simp [runEdit, hfs, hdec, htxt, hsp]⟩,
        fun q b => by simp [runEdit, hfs, hdec, htxt, hsp]⟩
    | some toks =>
      cases toks with
      | nil =>
        exact ⟨⟨EditError.editorInvocationError errEditorEmpty,
            by simp [runEdit, hfs, hdec, htxt, hsp]⟩,
          fun q b => by simp [runEdit, hfs, hdec, htxt, hsp]⟩
      | cons prog rest =>
        exact ⟨⟨EditError.malformedText,
            by simp [runEdit, hfs, hdec, htxt, hsp, hft]⟩,
          fun q b => by simp [runEdit, hfs, hdec, htxt, hsp, hft]⟩
  · intro q b hw
    cases hfs : fs p with
    | none => simp [runEdit, hfs] at hw
    | some buffer =>
      cases hdec : C.decode buffer with
      | none => simp [runEdit, hfs, hdec] at hw
      | some d =>
        cases htxt : C.toText d with
        | none => simp [runEdit, hfs, hdec, htxt] at hw
        | some text =>
          cases hsp : shellSplit (editorOf ea ev) with
          | none => simp [runEdit, hfs, hdec, htxt, hsp] at hw
          | some toks =>
            cases toks with
            | nil => simp [runEdit, hfs, hdec, htxt, hsp] at hw
            | cons prog rest =>
              cases hft : C.fromText (er text).1 with
              | none => simp [runEdit, hfs, hdec, htxt, hsp, hft] at hw
              | some d2 =>
                cases henc : C.encode d2 with
                | none => simp [runEdit, hfs, hdec, htxt, hsp, hft, henc] at hw
                | some outB =>
                  by_cases hbo : buffer = outB
                  · subst hbo
                    simp [runEdit, hfs, hdec, htxt, hsp, hft, henc] at hw
                  · simp [runEdit, hfs, hdec, htxt, hsp, hft, henc, hbo] at hw
                    obtain ⟨hq, hb⟩ := hw
                    subst hq
                    subst hb
                    refine ⟨?_, rfl,
                      buffer, d, text, d2, rfl, hdec, htxt, hft, henc,
                      fun hc => hbo hc.symm⟩
                    simp [runEdit, hfs, hdec, htxt, hsp, hft, henc, hbo]

/-- Witness for C4: a concrete run that does write, exhibiting the
successful re-parse, the successful re-encode, and the byte difference. -/
theorem edit_malformed_aborts_before_write_witness :
    (runEdit c4Codec c4Fs c4Tmp c4Path (some c4Ed) none
      (fun t => (t, 0))).result = Except.ok () ∧ c4Path = c4Path ∧
    ∃ buffer d text d2, c4Fs c4Path = some buffer ∧
      c4Codec.decode buffer = some d ∧ c4Codec.toText d = some text ∧
      c4Codec.fromText ((fun (t : Bytes) => (t, (0 : Int))) text).1 =
        some d2 ∧
      c4Codec.encode d2 = some ([1] : Bytes) ∧ ([1] : Bytes) ≠ buffer :=
  (edit_malformed_aborts_before_write c4Codec c4Fs c4Tmp c4Path
    (some c4Ed) none (fun t => (t, 0))).2 c4Path [1] (by decide)
